import Mathlib

/-!
# Verification of the netd core (NetworkController and chain topology manager)

Shallow embedding of `server/NetworkController.cpp` and `server/Controllers.cpp`.
The registry state (`NetworkController`) mirrors the C++ member fields; the
`std::map<unsigned, Network*>` is represented as a list of `Network` values kept
in ascending `netId` order (`std::map` iteration order), and lookups are
`find?` over that list.  The `Network` class hierarchy, `UidRanges` and
`Fwmark` are not part of the sources; they are modelled from the spec where
noted.  Kernel side effects (route insertions, iptables writes) always succeed
in the model; `setDefaultNetwork` additionally records the kernel-visible
default-install/remove actions it performs, in order.
-/

namespace Netd

/-! ## Constants (netid_client.h, NetworkController.h, Permission, errno) -/

def NETID_UNSET : Nat := 0
def DUMMY_NET_ID : Nat := 51
def UNREACHABLE_NET_ID : Nat := 52
def LOCAL_NET_ID : Nat := 99
def MIN_NET_ID : Nat := 100
def MAX_NET_ID : Nat := 65535
def MIN_OEM_ID : Nat := 1
def MAX_OEM_ID : Nat := 50
def FIRST_APPLICATION_UID : Nat := 10000
def AID_VPN : Nat := 1016

/-- `INVALID_UID` is `(uid_t)-1`, i.e. the all-ones 32-bit value. -/
def INVALID_UID : Nat := 4294967295

def PERMISSION_NONE : Nat := 0
def PERMISSION_NETWORK : Nat := 1
def PERMISSION_SYSTEM : Nat := 3

def EPERM : Int := 1
def ENOENT : Int := 2
def ESRCH : Int := 3
def EACCES : Int := 13
def EBUSY : Int := 16
def EEXIST : Int := 17
def EINVAL : Int := 22
def ENONET : Int := 64
def EREMOTEIO : Int := 121

/-- UidRanges.h: rules at this subsidiary priority mark "no default network". -/
def SUB_PRIORITY_NO_DEFAULT : Int := 999

/-! ## Networks

Modelled from the spec: the `Network` class hierarchy (Physical, Virtual,
Local, Unreachable, Dummy) is not under the sources; a network is a record
carrying the common fields of spec section 3 plus the variant tag.  The
`permission` field is meaningful for Physical networks only and stays
`PERMISSION_NONE` on every other variant; `secure` is meaningful for Virtual
networks only.  Uid ranges are inclusive `[start, stop]` intervals attached at
a subsidiary priority. -/

inductive NetworkKind where
  | physical
  | virtual
  | localNet
  | unreachable
  | dummy
deriving DecidableEq, Repr

structure UidRangeRule where
  start : Nat
  stop : Nat
  subPriority : Int
deriving DecidableEq, Repr

structure Network where
  netId : Nat
  kind : NetworkKind
  secure : Bool
  permission : Nat
  interfaces : List String
  uidRanges : List UidRangeRule
  allowedUids : List (Nat × Nat)
  isDefault : Bool
deriving DecidableEq, Repr

/-- Modelled from the spec: `Network::appliesToUser(uid, &subPriority)` is true
iff some attached range contains the uid, and writes the winning (numerically
smallest) subPriority; here the boolean and the out-parameter are combined
into an `Option`. -/
def Network.appliesToUser (n : Network) (uid : Nat) : Option Int :=
  ((n.uidRanges.filter (fun r => r.start ≤ uid && uid ≤ r.stop)).map
    (fun r => r.subPriority)).min?

/-- Modelled from the spec: the per-network allowlist check; an empty allowlist
means every uid is allowed. -/
def Network.isUidAllowed (n : Network) (uid : Nat) : Bool :=
  n.allowedUids.isEmpty || n.allowedUids.any (fun r => r.1 ≤ uid && uid ≤ r.2)

/-- A fresh network of the given variant with no interfaces, ranges or
allowlist. -/
def newNetwork (netId : Nat) (kind : NetworkKind) : Network :=
  { netId := netId, kind := kind, secure := false, permission := PERMISSION_NONE,
    interfaces := [], uidRanges := [], allowedUids := [], isDefault := false }

/-! ## Registry state (the NetworkController member fields) -/

structure NetworkController where
  /-- `mNetworks`, kept in ascending netId order like `std::map` iteration. -/
  networks : List Network
  /-- `mUsers : uid → Permission`. -/
  users : List (Nat × Nat)
  /-- `mProtectableUsers : set of (uid, netId)`. -/
  protectableUsers : List (Nat × Nat)
  /-- `mDefaultNetId`. -/
  defaultNetId : Nat
  /-- `mIfindexToLastNetId`. -/
  ifindexToLastNetId : List (Nat × Nat)
  /-- `mAddressToIfindices`. -/
  addressToIfindices : List (String × List Nat)
deriving DecidableEq, Repr

/-- Association-list lookup for the `Nat`-keyed member maps. -/
def alookupNat (m : List (Nat × Nat)) (k : Nat) : Option Nat :=
  (m.find? (fun p => p.1 == k)).map (fun p => p.2)

/-- Association-list lookup for `mAddressToIfindices`. -/
def alookupStr (m : List (String × List Nat)) (k : String) : Option (List Nat) :=
  (m.find? (fun p => p.1 == k)).map (fun p => p.2)

/-- `NetworkController::getNetworkLocked`. -/
def getNetworkLocked (c : NetworkController) (netId : Nat) : Option Network :=
  c.networks.find? (fun n => n.netId == netId)

/-- `NetworkController::isValidNetworkLocked`. -/
def isValidNetworkLocked (c : NetworkController) (netId : Nat) : Bool :=
  (getNetworkLocked c netId).isSome

/-- `NetworkController::isVirtualNetworkLocked`. -/
def isVirtualNetworkLocked (c : NetworkController) (netId : Nat) : Bool :=
  match getNetworkLocked c netId with
  | some n => n.kind == NetworkKind.virtual
  | none => false

/-- `NetworkController::getPermissionForUserLocked`. -/
def getPermissionForUserLocked (c : NetworkController) (uid : Nat) : Nat :=
  match alookupNat c.users uid with
  | some p => p
  | none => if uid < FIRST_APPLICATION_UID then PERMISSION_SYSTEM else PERMISSION_NONE

/-- `NetworkController::isProtectableLocked`. -/
def isProtectableLocked (c : NetworkController) (uid netId : Nat) : Bool :=
  c.protectableUsers.contains (uid, NETID_UNSET) ||
    c.protectableUsers.contains (uid, netId)

/-- `NetworkController::canProtectLocked`. -/
def canProtectLocked (c : NetworkController) (uid netId : Nat) : Bool :=
  if (getPermissionForUserLocked c uid).land PERMISSION_SYSTEM == PERMISSION_SYSTEM then
    true
  else
    isProtectableLocked c uid netId

/-- `NetworkController::allowProtect` (set insertion semantics of `emplace`). -/
def allowProtect (c : NetworkController) (uid netId : Nat) : Int × NetworkController :=
  if c.protectableUsers.contains (uid, netId) then
    (-EEXIST, c)
  else
    (0, { c with protectableUsers := c.protectableUsers ++ [(uid, netId)] })

/-- `NetworkController::denyProtect` (set erase semantics). -/
def denyProtect (c : NetworkController) (uid netId : Nat) : Int × NetworkController :=
  if c.protectableUsers.contains (uid, netId) then
    (0, { c with protectableUsers := c.protectableUsers.filter (fun p => p != (uid, netId)) })
  else
    (-ENOENT, c)

/-- `NetworkController::getVirtualNetworkForUserLocked`: the first Virtual
network, in map order, that applies to the uid. -/
def getVirtualNetworkForUserLocked (c : NetworkController) (uid : Nat) : Option Network :=
  c.networks.find? (fun n => n.kind == NetworkKind.virtual && (n.appliesToUser uid).isSome)

/-- One step of the scan in
`NetworkController::getPhysicalOrUnreachableNetworkForUserLocked`; the
accumulator is `(bestNetwork, bestSubPriority)`. -/
def bestPhysUnreachStep (uid : Nat) (acc : Option Network × Int) (n : Network) :
    Option Network × Int :=
  if !(n.kind == NetworkKind.physical || n.kind == NetworkKind.unreachable) then acc
  else
    match n.appliesToUser uid with
    | none => acc
    | some subPriority =>
      if subPriority == SUB_PRIORITY_NO_DEFAULT then acc
      else if subPriority < acc.2 then (some n, subPriority) else acc

/-- `NetworkController::getPhysicalOrUnreachableNetworkForUserLocked`. -/
def getPhysicalOrUnreachableNetworkForUserLocked (c : NetworkController) (uid : Nat) :
    Option Network :=
  (c.networks.foldl (bestPhysUnreachStep uid) (none, SUB_PRIORITY_NO_DEFAULT)).1

/-- `NetworkController::getNetworkForUser`. -/
def getNetworkForUser (c : NetworkController) (uid : Nat) : Nat :=
  match getVirtualNetworkForUserLocked c uid with
  | some virtualNetwork => virtualNetwork.netId
  | none =>
    match getPhysicalOrUnreachableNetworkForUserLocked c uid with
    | some network => network.netId
    | none => c.defaultNetId

/-- `NetworkController::getNetworkForConnectLocked`. -/
def getNetworkForConnectLocked (c : NetworkController) (uid : Nat) : Nat :=
  match getPhysicalOrUnreachableNetworkForUserLocked c uid with
  | some network => network.netId
  | none => c.defaultNetId

/-- `NetworkController::checkUserNetworkAccessLocked`, the nine-step access
decision. -/
def checkUserNetworkAccessLocked (c : NetworkController) (uid netId : Nat) : Int :=
  match getNetworkLocked c netId with
  | none => -ENONET
  | some network =>
    if uid == INVALID_UID then - EREMOTEIO
    else
      let userPermission := getPermissionForUserLocked c uid
      if userPermission.land PERMISSION_SYSTEM == PERMISSION_SYSTEM then 0
      else if network.kind == NetworkKind.virtual then
        if (network.appliesToUser uid).isSome then 0 else -EPERM
      else
        let secureVpnApplies :=
          match getVirtualNetworkForUserLocked c uid with
          | some virtualNetwork =>
            virtualNetwork.secure && !(isProtectableLocked c uid netId)
          | none => false
        if secureVpnApplies then -EPERM
        else if network.kind == NetworkKind.physical && (network.appliesToUser uid).isSome then 0
        else if network.kind == NetworkKind.unreachable then
          if (network.appliesToUser uid).isSome then 0 else -EPERM
        else if !(network.isUidAllowed uid) then -EACCES
        else
          let networkPermission := network.permission
          if userPermission.land networkPermission == networkPermission then 0 else -EACCES

/-! ## The spec's nine-step decision list (section 4.4.4), stated in the
spec's own vocabulary, to be compared with the embedded code. -/

def NO_NETWORK : Int := -ENONET
def REMOTE_IO : Int := - EREMOTEIO
def PERMISSION_DENIED : Int := -EPERM
def ACCESS_DENIED : Int := -EACCES

/-- The spec's "applies to uid": some attached range contains the uid. -/
def specAppliesToUser (n : Network) (uid : Nat) : Bool :=
  n.uidRanges.any (fun r => r.start ≤ uid && uid ≤ r.stop)

/-- Spec section 4.4.4, the nine-step decision list, written from the spec's
words. -/
def checkUserNetworkAccessSpec (c : NetworkController) (uid netId : Nat) : Int :=
  match getNetworkLocked c netId with
  | none => NO_NETWORK
  | some network =>
    if uid == INVALID_UID then REMOTE_IO
    else if (getPermissionForUserLocked c uid).land PERMISSION_SYSTEM == PERMISSION_SYSTEM then 0
    else if network.kind == NetworkKind.virtual then
      if specAppliesToUser network uid then 0 else PERMISSION_DENIED
    else if (match getVirtualNetworkForUserLocked c uid with
             | some virtualNetwork => virtualNetwork.secure
             | none => false) && !(isProtectableLocked c uid netId) then
      PERMISSION_DENIED
    else if network.kind == NetworkKind.physical && specAppliesToUser network uid then 0
    else if network.kind == NetworkKind.unreachable then
      if specAppliesToUser network uid then 0 else PERMISSION_DENIED
    else if !(network.isUidAllowed uid) then ACCESS_DENIED
    else if (getPermissionForUserLocked c uid).land network.permission == network.permission then 0
    else ACCESS_DENIED

/-! ## Fwmark and the DNS network selection -/

/-- Modelled from the spec: the four fwmark fields packed into the low 20 bits
of the mark word (section 6).  The claims here are about the fields, so the
record, not the packed word, is the model. -/
structure Fwmark where
  netId : Nat
  explicitlySelected : Bool
  protectedFromVpn : Bool
  permission : Nat
deriving DecidableEq, Repr

/-- `NetworkController::getNetworkForDnsLocked`.  The resolver's state is the
oracle `hasNameservers` (standing for `resolv_has_nameservers`).  Returns the
rewritten netId together with the fwmark (whose `netId` field the C++ sets
from the rewritten value just before returning). -/
def getNetworkForDnsLocked (c : NetworkController) (hasNameservers : Nat → Bool)
    (netId uid : Nat) : Nat × Fwmark :=
  let fwmark : Fwmark :=
    { netId := 0, explicitlySelected := false, protectedFromVpn := true,
      permission := PERMISSION_SYSTEM }
  let appDefaultNetwork := getPhysicalOrUnreachableNetworkForUserLocked c uid
  let defaultNetId :=
    match appDefaultNetwork with
    | some network => network.netId
    | none => c.defaultNetId
  if netId == NETID_UNSET && (getVirtualNetworkForUserLocked c uid).isNone then
    (defaultNetId, { fwmark with netId := defaultNetId, explicitlySelected := true })
  else if checkUserNetworkAccessLocked c uid netId == 0 then
    let netId1 :=
      match getNetworkLocked c netId with
      | some network =>
        if network.kind == NetworkKind.virtual && !(hasNameservers netId) then defaultNetId
        else netId
      | none => netId
    (netId1, { fwmark with netId := netId1, explicitlySelected := true })
  else
    match getVirtualNetworkForUserLocked c uid with
    | some virtualNetwork =>
      if hasNameservers virtualNetwork.netId then
        (virtualNetwork.netId,
         { fwmark with netId := virtualNetwork.netId, explicitlySelected := true })
      else (defaultNetId, { fwmark with netId := defaultNetId })
    | none => (defaultNetId, { fwmark with netId := defaultNetId })

/-! ## Construction, creation and destruction of networks -/

/-- The registry as built by the `NetworkController` constructor: the three
sentinel networks (in `std::map` order 51 < 52 < 99) and the protectable pair
`(AID_VPN, NETID_UNSET)`. -/
def freshNetworkController : NetworkController :=
  { networks := [newNetwork DUMMY_NET_ID NetworkKind.dummy,
                 newNetwork UNREACHABLE_NET_ID NetworkKind.unreachable,
                 newNetwork LOCAL_NET_ID NetworkKind.localNet],
    users := [],
    protectableUsers := [(AID_VPN, NETID_UNSET)],
    defaultNetId := NETID_UNSET,
    ifindexToLastNetId := [],
    addressToIfindices := [] }

/-- `mNetworks[netId] = network`: sorted insertion, replacing an entry with the
same key, preserving `std::map` iteration order. -/
def insertNetwork : List Network → Network → List Network
  | [], n => [n]
  | m :: ms, n =>
    if n.netId < m.netId then n :: m :: ms
    else if n.netId == m.netId then n :: ms
    else m :: insertNetwork ms n

/-- `NetworkController::createPhysicalNetworkLocked`.  `setPermission` on the
fresh network and the TCP-monitor signal are kernel-side and always succeed in
the model; the `local` flag only selects route tables and is not represented
on the network. -/
def createPhysicalNetworkLocked (c : NetworkController) (netId permission : Nat)
    (_isLocal : Bool) : Int × NetworkController :=
  if !((MIN_NET_ID ≤ netId && netId ≤ MAX_NET_ID) ||
       (MIN_OEM_ID ≤ netId && netId ≤ MAX_OEM_ID)) then
    (-EINVAL, c)
  else if isValidNetworkLocked c netId then
    (-EEXIST, c)
  else
    let physicalNetwork := { newNetwork netId NetworkKind.physical with permission := permission }
    (0, { c with networks := insertNetwork c.networks physicalNetwork })

/-- `NetworkController::createPhysicalOemNetwork`: scan
`[MIN_OEM_ID, MAX_OEM_ID]` for the first free id (the loop leaves the scan
variable above `MAX_OEM_ID` when every id is taken).  Returns
`(error, *pNetId, state)`. -/
def createPhysicalOemNetwork (c : NetworkController) (permission : Nat) :
    Int × Nat × NetworkController :=
  match (List.range' MIN_OEM_ID (MAX_OEM_ID - MIN_OEM_ID + 1)).find?
      (fun netId => !(isValidNetworkLocked c netId)) with
  | none => (-ENONET, 0, c)
  | some netId =>
    let r := createPhysicalNetworkLocked c netId permission false
    if r.1 != 0 then (r.1, 0, r.2) else (r.1, netId, r.2)

/-- `NetworkController::destroyNetwork`.  `clearInterfaces`, `removeAsDefault`
and the fallthrough removal are kernel-side and succeed in the model, so the
accumulated error is 0 on the destruction path. -/
def destroyNetwork (c : NetworkController) (netId : Nat) : Int × NetworkController :=
  if netId == LOCAL_NET_ID || netId == UNREACHABLE_NET_ID then (-EINVAL, c)
  else
    match getNetworkLocked c netId with
    | none => (-ENONET, c)
    | some _network =>
      let c1 := if c.defaultNetId == netId then { c with defaultNetId := NETID_UNSET } else c
      (0, { c1 with
              networks := c1.networks.filter (fun n => n.netId != netId),
              ifindexToLastNetId :=
                c1.ifindexToLastNetId.filter (fun p => p.2 != netId) })

/-! ## Default network -/

/-- `NetworkController::getDefaultNetwork`. -/
def getDefaultNetwork (c : NetworkController) : Nat :=
  c.defaultNetId

/-- The kernel-visible actions `setDefaultNetwork` performs, in order:
`PhysicalNetwork::addAsDefault` on the new default and
`PhysicalNetwork::removeAsDefault` on the previous one. -/
inductive DefaultAction where
  | add (netId : Nat)
  | remove (netId : Nat)
deriving DecidableEq, Repr

/-- Modelled from the spec: `addAsDefault` / `removeAsDefault` mark a Physical
network as the default (the kernel route updates always succeed in the
model). -/
def setNetworkIsDefault (networks : List Network) (netId : Nat) (b : Bool) : List Network :=
  networks.map (fun n => if n.netId == netId then { n with isDefault := b } else n)

/-- Second half of `NetworkController::setDefaultNetwork`: remove the default
status of the previous default (if any) and commit `mDefaultNetId`.  `c0` is
the state at entry (for `mDefaultNetId`), `c1` the state after the add step,
`tr1` the actions already performed. -/
def setDefaultPart2 (c0 c1 : NetworkController) (netId : Nat) (tr1 : List DefaultAction) :
    Int × NetworkController × List DefaultAction :=
  if c0.defaultNetId == NETID_UNSET then (0, { c1 with defaultNetId := netId }, tr1)
  else
    match getNetworkLocked c1 c0.defaultNetId with
    | none => (-ESRCH, c1, tr1)
    | some network =>
      if network.kind != NetworkKind.physical then (-ESRCH, c1, tr1)
      else
        (0, { c1 with
                networks := setNetworkIsDefault c1.networks c0.defaultNetId false,
                defaultNetId := netId },
         tr1 ++ [DefaultAction.remove c0.defaultNetId])

/-- `NetworkController::setDefaultNetwork`: no-op when equal; else install the
new default (add step), then remove the previous one.  Also returns the
ordered list of kernel-visible default actions. -/
def setDefaultNetwork (c : NetworkController) (netId : Nat) :
    Int × NetworkController × List DefaultAction :=
  if netId == c.defaultNetId then (0, c, [])
  else if netId == NETID_UNSET then setDefaultPart2 c c netId []
  else
    match getNetworkLocked c netId with
    | none => (-ENONET, c, [])
    | some network =>
      if network.kind != NetworkKind.physical then (-EINVAL, c, [])
      else
        setDefaultPart2 c
          { c with networks := setNetworkIsDefault c.networks netId true } netId
          [DefaultAction.add netId]

/-! ## Allowlists -/

/-- `NetworkController::clearAllowedUidsForAllNetworksLocked`. -/
def clearAllowedUidsForAllNetworksLocked (c : NetworkController) : NetworkController :=
  { c with networks := c.networks.map (fun n => { n with allowedUids := [] }) }

/-- Modelled from the spec: `Network::setAllowedUids` replaces the allowlist of
the named network. -/
def setAllowedUidsOn (networks : List Network) (netId : Nat) (ranges : List (Nat × Nat)) :
    List Network :=
  networks.map (fun n => if n.netId == netId then { n with allowedUids := ranges } else n)

/-- `NetworkController::setNetworkAllowlist`: validate every listed netId, then
clear every network's allowlist, then apply the listed ranges in order. -/
def setNetworkAllowlist (c : NetworkController)
    (rangeConfigs : List (Nat × List (Nat × Nat))) : Int × NetworkController :=
  if rangeConfigs.any (fun config => (getNetworkLocked c config.1).isNone) then (-ENONET, c)
  else
    let nets :=
      rangeConfigs.foldl (fun nets config => setAllowedUidsOn nets config.1 config.2)
        ((clearAllowedUidsForAllNetworksLocked c).networks)
    (0, { c with networks := nets })

/-! ## Interface addresses and VPN handover -/

/-- `std::map::operator[]` on `mIfindexToLastNetId`: return the mapped value,
inserting a zero entry when the key is absent. -/
def mapIndexDefault (m : List (Nat × Nat)) (k : Nat) : Nat × List (Nat × Nat) :=
  match alookupNat m k with
  | some v => (v, m)
  | none => (0, m ++ [(k, 0)])

/-- The loop at the end of `NetworkController::removeInterfaceAddress`: scan
the remaining ifindices of the address for one whose last netId equals the
removed interface's last netId and is a Virtual network.  Threads the
`mIfindexToLastNetId` map because `operator[]` inserts absent keys. -/
def vpnHandoverLoop (c : NetworkController) (lastNetId : Nat) :
    List Nat → List (Nat × Nat) → Bool × List (Nat × Nat)
  | [], m => (true, m)
  | idx :: rest, m =>
    let r := mapIndexDefault m idx
    if lastNetId == r.1 && isVirtualNetworkLocked c r.1 then (false, r.2)
    else vpnHandoverLoop c lastNetId rest r.2

/-- `NetworkController::removeInterfaceAddress`: returns whether the caller
should force-close sockets bound to the address, plus the updated state. -/
def removeInterfaceAddress (c : NetworkController) (ifindex : Nat) (address : String) :
    Bool × NetworkController :=
  match alookupStr c.addressToIfindices address with
  | none => (true, c)
  | some ifindices =>
    if ifindices.contains ifindex then
      let remaining := ifindices.filter (fun i => i != ifindex)
      if remaining.isEmpty then
        let erased := c.addressToIfindices.filter (fun p => p.1 != address)
        (true, { c with addressToIfindices := erased })
      else
        let updated :=
          c.addressToIfindices.map (fun p => if p.1 == address then (p.1, remaining) else p)
        let c1 := { c with addressToIfindices := updated }
        match alookupNat c1.ifindexToLastNetId ifindex with
        | none => (true, c1)
        | some lastNetId =>
          let r := vpnHandoverLoop c1 lastNetId remaining c1.ifindexToLastNetId
          (r.1, { c1 with ifindexToLastNetId := r.2 })
    else (true, c)

/-! ## Chain topology manager (Controllers.cpp)

The iptables-restore batches are modelled as lists of lines; the daemon joins
them with newlines before handing them to the executor. -/

/-- `CHILD_CHAIN_TEMPLATE`: the only rule installed at parent chains. -/
def linkLine (parent child : String) : String :=
  "-A " ++ parent ++ " -j " ++ child

/-- `:<chain> -`: create-or-flush a user-defined chain. -/
def flushChainLine (chain : String) : String :=
  ":" ++ chain ++ " -"

/-- Tokenize a rule line at spaces; this is `String.splitOn " "` written on
the character list (empty tokens mark consecutive, leading or trailing
spaces, which the regex rejects). -/
def splitTokens : List Char → List (List Char)
  | [] => [[]]
  | c :: rest =>
    if c = ' ' then [] :: splitTokens rest
    else
      match splitTokens rest with
      | [] => [[c]]
      | w :: ws => (c :: w) :: ws

/-- `CHILD_CHAIN_REGEX`, `^-A ([^ ]+) -j ([^ ]+)$`, as the equivalent
hand-written line parser: a line matches exactly when it is
`-A <parent> -j <child>` with single spaces, nonempty space-free chain names,
and nothing after the child name. -/
def parseChildChainRule (line : String) : Option (String × String) :=
  match splitTokens line.data with
  | [a, p, j, ch] =>
    if a = ['-', 'A'] ∧ j = ['-', 'j'] ∧ p ≠ [] ∧ ch ≠ [] then
      some (String.mk p, String.mk ch)
    else none
  | _ => none

/-- `Controllers::findExistingChildChains`: the children already linked under
`parentChain`, read out of the listed parent contents. -/
def findExistingChildChains (parentChain : String) (listing : List String) : List String :=
  listing.filterMap (fun line =>
    match parseChildChainRule line with
    | some (p, ch) => if p == parentChain then some ch else none
    | none => none)

/-- `Controllers::createChildChains`: the emitted batch.  Exclusive mode
flushes the parent both ways then recreates and links every child; cooperative
mode lists the parent first (`listing` is that listing) and links only the
children not already linked. -/
def createChildChains (listing : List String) (table parentChain : String)
    (childChains : List String) (exclusive : Bool) : List String :=
  let existingChildChains := if exclusive then [] else findExistingChildChains parentChain listing
  let header := if exclusive then [flushChainLine parentChain, "-F " ++ parentChain] else []
  ("*" ++ table) ::
    (header ++
      childChains.flatMap (fun childChain =>
        flushChainLine childChain ::
          (if existingChildChains.contains childChain then []
           else [linkLine parentChain childChain])) ++
      ["COMMIT"])

/-! ## Concrete scenario states (used to exercise the theorems) -/

/-- Every OEM id in `[MIN_OEM_ID, MAX_OEM_ID]` pre-created (scenario S6). -/
def oemFullController : NetworkController :=
  (List.range' MIN_OEM_ID 50).foldl
    (fun st netId => (createPhysicalNetworkLocked st netId PERMISSION_NONE false).2)
    freshNetworkController

/-- A physical default network 100 plus a secure virtual network 101 whose uid
range covers `[10000, 10999]` (scenario S2). -/
def vpnScenarioController : NetworkController :=
  let physical := { newNetwork 100 NetworkKind.physical with isDefault := true }
  let vpnRange : UidRangeRule := { start := 10000, stop := 10999, subPriority := 0 }
  let vpn := { newNetwork 101 NetworkKind.virtual with secure := true, uidRanges := [vpnRange] }
  { networks := [physical, vpn], users := [], protectableUsers := [],
    defaultNetId := 100, ifindexToLastNetId := [], addressToIfindices := [] }

/-- Interfaces 10 and 11 both in virtual network 101 and both carrying the
address `2001:db8::1` (scenario S5). -/
def handoverScenarioController : NetworkController :=
  { networks := [newNetwork 101 NetworkKind.virtual],
    users := [], protectableUsers := [], defaultNetId := NETID_UNSET,
    ifindexToLastNetId := [(10, 101), (11, 101)],
    addressToIfindices := [("2001:db8::1", [10, 11])] }

/-! ## Helper lemmas -/

theorem min?_isSome (l : List Int) : l.min?.isSome = !l.isEmpty := by
  cases l <;> simp [List.min?]

theorem isEmpty_map {α β : Type} (f : α → β) (l : List α) :
    (l.map f).isEmpty = l.isEmpty := by
  cases l <;> rfl

theorem filter_isEmpty_eq_not_any {α : Type} (p : α → Bool) (l : List α) :
    (l.filter p).isEmpty = !(l.any p) := by
  induction l with
  | nil => rfl
  | cons a l ih => cases h : p a <;> simp [List.filter_cons, h, ih]

theorem appliesToUser_isSome (n : Network) (uid : Nat) :
    (n.appliesToUser uid).isSome = specAppliesToUser n uid := by
  unfold Network.appliesToUser specAppliesToUser
  rw [min?_isSome, isEmpty_map, filter_isEmpty_eq_not_any, Bool.not_not]

/-- C1: `checkUserNetworkAccess(uid, netId)` implements exactly the nine-step
decision list of the spec: `NO_NETWORK` for an unregistered netId, `REMOTE_IO`
for `INVALID_UID`, success for SYSTEM-permission uids, applies-to-uid for
Virtual networks, `PERMISSION_DENIED` under a secure VPN unless protectable,
success for applicable Physical networks, applies-to-uid for Unreachable
networks, `ACCESS_DENIED` on allowlist denial, and permission-bit dominance
last. -/
theorem checkUserNetworkAccess_matches_spec (c : NetworkController) (uid netId : Nat) :
    checkUserNetworkAccessLocked c uid netId = checkUserNetworkAccessSpec c uid netId := by
  unfold checkUserNetworkAccessLocked checkUserNetworkAccessSpec
  cases hn : getNetworkLocked c netId with
  | none => rfl
  | some network =>
    simp only [appliesToUser_isSome, NO_NETWORK, REMOTE_IO, PERMISSION_DENIED, ACCESS_DENIED]
    cases hv : getVirtualNetworkForUserLocked c uid <;>
      simp [appliesToUser_isSome]

/-- C2: for a DNS query whose requested netId is `UNSET` from a uid with no
applicable Virtual network, `getNetworkForDns` rewrites the netId to the uid's
app-default network when one exists and otherwise to the global default, and
the fwmark fields are exactly netId = rewritten netId, explicitlySelected,
protectedFromVpn, and SYSTEM permission. -/
theorem getNetworkForDns_unset_no_vpn (c : NetworkController) (hasNameservers : Nat → Bool)
    (uid : Nat) (h : getVirtualNetworkForUserLocked c uid = none) :
    (∀ network, getPhysicalOrUnreachableNetworkForUserLocked c uid = some network →
      getNetworkForDnsLocked c hasNameservers NETID_UNSET uid =
        (network.netId,
         { netId := network.netId, explicitlySelected := true, protectedFromVpn := true,
           permission := PERMISSION_SYSTEM })) ∧
    (getPhysicalOrUnreachableNetworkForUserLocked c uid = none →
      getNetworkForDnsLocked c hasNameservers NETID_UNSET uid =
        (c.defaultNetId,
         { netId := c.defaultNetId, explicitlySelected := true, protectedFromVpn := true,
           permission := PERMISSION_SYSTEM })) := by
  constructor
  · intro network hn
    unfold getNetworkForDnsLocked
    rw [h, hn]
    simp
  · intro hn
    unfold getNetworkForDnsLocked
    rw [h, hn]
    simp

/-- C2 witness: uid 10001 on the S2-style state with the VPN removed: the DNS
netId is rewritten to the default network 100 with the expected mark. -/
theorem getNetworkForDns_unset_no_vpn_witness :
    getNetworkForDnsLocked freshNetworkController (fun _ => false) NETID_UNSET 10001 =
      (NETID_UNSET,
       { netId := NETID_UNSET, explicitlySelected := true, protectedFromVpn := true,
         permission := PERMISSION_SYSTEM }) :=
  (getNetworkForDns_unset_no_vpn freshNetworkController (fun _ => false) 10001 rfl).2 rfl

/-- C3 counterexample: the claim says the Dummy sentinel can never be
destroyed, but `destroyNetwork` only rejects LOCAL and UNREACHABLE:
`destroyNetwork(DUMMY)` on the freshly constructed registry succeeds and
removes the Dummy network from the map. -/
theorem destroyNetwork_dummy_succeeds :
    (destroyNetwork freshNetworkController DUMMY_NET_ID).1 = 0 ∧
    getNetworkLocked (destroyNetwork freshNetworkController DUMMY_NET_ID).2 DUMMY_NET_ID
      = none := by
  decide

/-- C3 (amended): LOCAL and UNREACHABLE are created at registry construction
and can never be destroyed — `destroyNetwork` returns the nonzero error
`-EINVAL` and leaves the state unchanged, in any state; DUMMY is also created
at construction but is not protected by `destroyNetwork`. -/
theorem destroyNetwork_sentinels (c : NetworkController) :
    destroyNetwork c LOCAL_NET_ID = (-EINVAL, c) ∧
    destroyNetwork c UNREACHABLE_NET_ID = (-EINVAL, c) ∧
    isValidNetworkLocked freshNetworkController LOCAL_NET_ID = true ∧
    isValidNetworkLocked freshNetworkController DUMMY_NET_ID = true ∧
    isValidNetworkLocked freshNetworkController UNREACHABLE_NET_ID = true :=
  ⟨rfl, rfl, rfl, rfl, rfl⟩

/-- C8 counterexample: `setDefaultNetwork(100)` on the fresh registry fails
(no network 100 is registered) and leaves the registry unchanged, so the
subsequent `getDefaultNetwork()` still returns `UNSET`, not 100 — set-then-get
does not yield n for every state and netId. -/
theorem setDefaultNetwork_get_cex :
    (setDefaultNetwork freshNetworkController 100).1 ≠ 0 ∧
    (setDefaultNetwork freshNetworkController 100).2.1 = freshNetworkController ∧
    getDefaultNetwork (setDefaultNetwork freshNetworkController 100).2.1 ≠ 100 := by
  decide

/-- C8 (amended): whenever `setDefaultNetwork(n)` succeeds, a following
`getDefaultNetwork()` yields n; when n equals the current default the call is
a no-op returning success with no kernel actions; otherwise, on success, the
new default is installed (addAsDefault) before the previous default's status
is removed (removeAsDefault). -/
theorem setDefaultPart2_res (c0 c1 : NetworkController) (netId : Nat)
    (tr1 : List DefaultAction) :
    ((setDefaultPart2 c0 c1 netId tr1).1 = 0 →
      (setDefaultPart2 c0 c1 netId tr1).2.1.defaultNetId = netId) ∧
    ((setDefaultPart2 c0 c1 netId tr1).1 = 0 →
      (setDefaultPart2 c0 c1 netId tr1).2.2 =
        tr1 ++ (if c0.defaultNetId = NETID_UNSET then []
                else [DefaultAction.remove c0.defaultNetId])) := by
  unfold setDefaultPart2
  by_cases h : c0.defaultNetId = NETID_UNSET
  · simp [h]
  · simp only [beq_iff_eq, if_neg h]
    cases hlook : getNetworkLocked c1 c0.defaultNetId with
    | none =>
      exact ⟨fun he => by simp [ESRCH] at he, fun he => by simp [ESRCH] at he⟩
    | some network =>
      cases hk : network.kind != NetworkKind.physical with
      | false => simp [hk, h]
      | true =>
        exact ⟨fun he => by simp [hk, ESRCH] at he, fun he => by simp [hk, ESRCH] at he⟩

theorem setDefaultNetwork_spec (c : NetworkController) (netId : Nat) :
    (netId = c.defaultNetId → setDefaultNetwork c netId = (0, c, [])) ∧
    ((setDefaultNetwork c netId).1 = 0 →
      getDefaultNetwork (setDefaultNetwork c netId).2.1 = netId) ∧
    (netId ≠ c.defaultNetId → (setDefaultNetwork c netId).1 = 0 →
      (setDefaultNetwork c netId).2.2 =
        (if netId = NETID_UNSET then [] else [DefaultAction.add netId]) ++
        (if c.defaultNetId = NETID_UNSET then []
         else [DefaultAction.remove c.defaultNetId])) := by
  by_cases h : netId = c.defaultNetId
  · refine ⟨fun _ => by simp [setDefaultNetwork, h], fun _ => ?_, fun hne => absurd h hne⟩
    simp [setDefaultNetwork, h, getDefaultNetwork]
  · have hres :
        ((setDefaultNetwork c netId).1 = 0 →
          (setDefaultNetwork c netId).2.1.defaultNetId = netId) ∧
        ((setDefaultNetwork c netId).1 = 0 →
          (setDefaultNetwork c netId).2.2 =
            (if netId = NETID_UNSET then [] else [DefaultAction.add netId]) ++
            (if c.defaultNetId = NETID_UNSET then []
             else [DefaultAction.remove c.defaultNetId])) := by
      unfold setDefaultNetwork
      simp only [beq_iff_eq, if_neg h]
      by_cases h0 : netId = NETID_UNSET
      · simpa [h0] using setDefaultPart2_res c c netId []
      · simp only [if_neg h0]
        cases hlook : getNetworkLocked c netId with
        | none =>
          exact ⟨fun he => by simp [ENONET] at he, fun he => by simp [ENONET] at he⟩
        | some network =>
          cases hk : network.kind != NetworkKind.physical with
          | false =>
            simpa [hk, h0] using
              setDefaultPart2_res c
                { c with networks := setNetworkIsDefault c.networks netId true } netId
                [DefaultAction.add netId]
          | true =>
            exact ⟨fun he => by simp [hk, EINVAL] at he, fun he => by simp [hk, EINVAL] at he⟩
    exact ⟨fun he => absurd he h, hres.1, fun _ => hres.2⟩


/-- C8 witness: with physical network 100 registered, `setDefaultNetwork(100)`
succeeds, and `getDefaultNetwork()` afterwards returns 100. -/
theorem setDefaultNetwork_spec_witness :
    (setDefaultNetwork
        (createPhysicalNetworkLocked freshNetworkController 100 PERMISSION_NONE false).2
        100).1 = 0 ∧
    getDefaultNetwork
        (setDefaultNetwork
          (createPhysicalNetworkLocked freshNetworkController 100 PERMISSION_NONE false).2
          100).2.1 = 100 :=
  ⟨by decide,
   (setDefaultNetwork_spec
      (createPhysicalNetworkLocked freshNetworkController 100 PERMISSION_NONE false).2
      100).2.1 (by decide)⟩

/-- C9 counterexample: the claim's clause that AID_VPN has no SYSTEM
permission bit set is false — in the fresh registry, AID_VPN (1016, below
FIRST_APPLICATION_UID) gets the default SYSTEM permission; accordingly
`canProtect(AID_VPN, 100)` stays true even after `denyProtect(AID_VPN,
UNSET)` has removed the protectable entry. -/
theorem aidvpn_permission_cex :
    (getPermissionForUserLocked freshNetworkController AID_VPN).land PERMISSION_SYSTEM
      = PERMISSION_SYSTEM ∧
    canProtectLocked (denyProtect freshNetworkController AID_VPN NETID_UNSET).2
      AID_VPN 100 = true := by
  decide

/-- C9 (amended): the fresh registry's protectable set contains
`(AID_VPN, UNSET)` and `canProtect(AID_VPN, n)` is true for every n;
`denyProtect(AID_VPN, UNSET)` removes the entry; and in any state whose
protectable set still holds the entry, `canProtect(AID_VPN, n)` is true for
every n — through the protectable entry even when AID_VPN's permission lacks
SYSTEM — though in the fresh registry AID_VPN's default permission is SYSTEM,
so removing the entry does not by itself make `canProtect` false. -/
theorem canProtect_aidvpn (c : NetworkController) (n : Nat)
    (h : c.protectableUsers.contains (AID_VPN, NETID_UNSET) = true) :
    freshNetworkController.protectableUsers.contains (AID_VPN, NETID_UNSET) = true ∧
    canProtectLocked freshNetworkController AID_VPN n = true ∧
    canProtectLocked c AID_VPN n = true ∧
    (denyProtect freshNetworkController AID_VPN NETID_UNSET).2.protectableUsers.contains
      (AID_VPN, NETID_UNSET) = false := by
  refine ⟨rfl, rfl, ?_, rfl⟩
  unfold canProtectLocked
  split
  · rfl
  · unfold isProtectableLocked
    rw [h]
    rfl

/-- C9 witness: a state where AID_VPN is explicitly assigned PERMISSION_NONE
but the protectable entry is present: `canProtect(AID_VPN, 100)` is true. -/
theorem canProtect_aidvpn_witness :
    canProtectLocked { freshNetworkController with users := [(AID_VPN, PERMISSION_NONE)] }
      AID_VPN 100 = true :=
  (canProtect_aidvpn { freshNetworkController with users := [(AID_VPN, PERMISSION_NONE)] }
    100 (by decide)).2.2.1

theorem find?_range'_least (p : Nat → Bool) (s len a : Nat)
    (h1 : s ≤ a) (h2 : a < s + len) (h3 : p a = true)
    (h4 : ∀ j, s ≤ j → j < a → p j = false) :
    (List.range' s len).find? p = some a := by
  induction len generalizing s with
  | zero => omega
  | succ n ih =>
    rw [List.range'_succ]
    by_cases hsa : s = a
    · rw [List.find?_cons_of_pos _ (hsa ▸ h3), hsa]
    · have hps : p s = false := h4 s (Nat.le_refl s) (by omega)
      rw [List.find?_cons_of_neg _ (by simp [hps])]
      exact ih (s + 1) (by omega) (by omega) (fun j hj1 hj2 => h4 j (by omega) hj2)

theorem find?_insertNetwork (l : List Network) (n : Network) (m : Nat) :
    (insertNetwork l n).find? (fun x => x.netId == m) =
      if n.netId = m then some n else l.find? (fun x => x.netId == m) := by
  induction l with
  | nil =>
    by_cases h : n.netId = m
    · simp [insertNetwork, List.find?, h]
    · have hb : (n.netId == m) = false := by simp [h]
      simp [insertNetwork, List.find?, hb, h]
  | cons a l ih =>
    unfold insertNetwork
    by_cases h1 : n.netId < a.netId
    · simp only [if_pos h1]
      by_cases h : n.netId = m
      · rw [List.find?_cons_of_pos _ (by simp [h]), if_pos h]
      · rw [List.find?_cons_of_neg _ (by simp [h]), if_neg h]
    · simp only [if_neg h1, beq_iff_eq]
      by_cases h2 : n.netId = a.netId
      · simp only [if_pos h2]
        by_cases h : n.netId = m
        · rw [List.find?_cons_of_pos _ (by simp [h]), if_pos h]
        · rw [List.find?_cons_of_neg _ (by simp [h]), if_neg h,
              List.find?_cons_of_neg _ (by simp [h2 ▸ h])]
      · simp only [if_neg h2]
        by_cases ha : a.netId = m
        · have hnm : ¬ n.netId = m := fun hc => h2 (by omega)
          rw [List.find?_cons_of_pos _ (by simp [ha]),
              List.find?_cons_of_pos _ (by simp [ha]), if_neg hnm]
        · rw [List.find?_cons_of_neg _ (by simp [ha]),
              List.find?_cons_of_neg _ (by simp [ha]), ih]

/-- C4: `createPhysicalOemNetwork` allocates the numerically smallest free
netId in `[MIN_OEM_ID, MAX_OEM_ID]`, creates a physical network carrying the
requested permission under that id (leaving every other id's entry
unchanged), and reports the id; when every id in the range is registered it
returns `-ENONET` (the EXHAUSTED error), reports 0, and leaves the state
unchanged. -/
theorem createPhysicalOemNetwork_spec (c : NetworkController) (permission : Nat) :
    ((∀ netId ∈ List.range' MIN_OEM_ID 50, isValidNetworkLocked c netId = true) →
      createPhysicalOemNetwork c permission = (-ENONET, 0, c)) ∧
    (∀ netId ∈ List.range' MIN_OEM_ID 50,
      isValidNetworkLocked c netId = false →
      (∀ j ∈ List.range' MIN_OEM_ID 50, j < netId → isValidNetworkLocked c j = true) →
      createPhysicalOemNetwork c permission =
        (0, netId, (createPhysicalNetworkLocked c netId permission false).2) ∧
      getNetworkLocked (createPhysicalOemNetwork c permission).2.2 netId =
        some { newNetwork netId NetworkKind.physical with permission := permission } ∧
      (∀ m, m ≠ netId →
        getNetworkLocked (createPhysicalOemNetwork c permission).2.2 m =
          getNetworkLocked c m)) := by
  constructor
  · intro hfull
    unfold createPhysicalOemNetwork
    have hfind : (List.range' MIN_OEM_ID (MAX_OEM_ID - MIN_OEM_ID + 1)).find?
        (fun netId => !(isValidNetworkLocked c netId)) = none := by
      rw [List.find?_eq_none]
      intro x hx
      simp [hfull x hx]
    rw [hfind]
  · intro netId hmem hfree hleast
    have hbounds : MIN_OEM_ID ≤ netId ∧ netId < MIN_OEM_ID + 50 := by
      rw [List.mem_range'] at hmem
      rcases hmem with ⟨i, hi, rfl⟩
      omega
    have hfind : (List.range' MIN_OEM_ID (MAX_OEM_ID - MIN_OEM_ID + 1)).find?
        (fun nid => !(isValidNetworkLocked c nid)) = some netId := by
      refine find?_range'_least _ MIN_OEM_ID 50 netId hbounds.1 hbounds.2 (by simp [hfree]) ?_
      intro j hj1 hj2
      have hjmem : j ∈ List.range' MIN_OEM_ID 50 := by
        rw [List.mem_range']
        exact ⟨j - MIN_OEM_ID, by omega, by omega⟩
      simp [hleast j hjmem hj2]
    have hin : ((MIN_NET_ID ≤ netId && netId ≤ MAX_NET_ID) ||
        (MIN_OEM_ID ≤ netId && netId ≤ MAX_OEM_ID)) = true := by
      have h1 : (MIN_OEM_ID ≤ netId && netId ≤ MAX_OEM_ID) = true := by
        simp only [MIN_OEM_ID] at hbounds
        simp only [Bool.and_eq_true, decide_eq_true_eq, MIN_OEM_ID, MAX_OEM_ID]
        omega
      simp [h1]
    have hret : (createPhysicalNetworkLocked c netId permission false).1 = 0 := by
      unfold createPhysicalNetworkLocked
      rw [hin]
      simp [hfree]
    have hnets : (createPhysicalNetworkLocked c netId permission false).2.networks =
        insertNetwork c.networks
          { newNetwork netId NetworkKind.physical with permission := permission } := by
      unfold createPhysicalNetworkLocked
      rw [hin]
      simp [hfree]
    have hmain : createPhysicalOemNetwork c permission =
        (0, netId, (createPhysicalNetworkLocked c netId permission false).2) := by
      unfold createPhysicalOemNetwork
      rw [hfind]
      simp [hret]
    refine ⟨hmain, ?_, ?_⟩
    · rw [hmain]
      unfold getNetworkLocked
      rw [hnets, find?_insertNetwork]
      simp [newNetwork]
    · intro m hm
      rw [hmain]
      unfold getNetworkLocked
      rw [hnets, find?_insertNetwork]
      simp [newNetwork]
      exact fun hc => absurd (Eq.symm hc) hm

set_option maxRecDepth 4000 in
/-- C4 witness: on the S6 state with every OEM id taken, allocation is
exhausted; on the fresh registry, the smallest OEM id 1 is allocated and
registered as a physical network. -/
theorem createPhysicalOemNetwork_spec_witness :
    createPhysicalOemNetwork oemFullController PERMISSION_NONE =
      (-ENONET, 0, oemFullController) ∧
    (createPhysicalOemNetwork freshNetworkController PERMISSION_NETWORK).2.1 = 1 ∧
    getNetworkLocked (createPhysicalOemNetwork freshNetworkController PERMISSION_NETWORK).2.2 1 =
      some { newNetwork 1 NetworkKind.physical with permission := PERMISSION_NETWORK } :=
  ⟨(createPhysicalOemNetwork_spec oemFullController PERMISSION_NONE).1 (by decide),
   by
    have h := (createPhysicalOemNetwork_spec freshNetworkController PERMISSION_NETWORK).2 1
      (by decide) (by decide) (by decide)
    exact ⟨by rw [h.1], h.2.1⟩⟩

theorem find?_map_keeps_netId (f : Network → Network)
    (hf : ∀ x, (f x).netId = x.netId) (l : List Network) (n : Nat) :
    (l.map f).find? (fun x => x.netId == n) =
      (l.find? (fun x => x.netId == n)).map f := by
  rw [List.find?_map]
  have hp : ((fun x => x.netId == n) ∘ f) = (fun x => x.netId == n) := by
    funext x
    simp [Function.comp, hf x]
  rw [hp]

theorem setAllowedUidsOn_find? (nets : List Network) (netId : Nat)
    (ranges : List (Nat × Nat)) (n : Nat) :
    (setAllowedUidsOn nets netId ranges).find? (fun x => x.netId == n) =
      (nets.find? (fun x => x.netId == n)).map
        (fun net => if net.netId == netId then { net with allowedUids := ranges } else net) := by
  unfold setAllowedUidsOn
  refine find?_map_keeps_netId _ (fun x => ?_) nets n
  by_cases h : x.netId = netId
  · simp [h]
  · simp [h]

theorem foldl_setAllowedUids_find? (cfgs : List (Nat × List (Nat × Nat)))
    (nets : List Network) (n : Nat) :
    ((cfgs.foldl (fun acc config => setAllowedUidsOn acc config.1 config.2) nets).find?
        (fun x => x.netId == n)) =
      (nets.find? (fun x => x.netId == n)).map (fun net =>
        match cfgs.reverse.find? (fun config => config.1 == n) with
        | some config => { net with allowedUids := config.2 }
        | none => net) := by
  induction cfgs generalizing nets with
  | nil =>
    simp only [List.foldl_nil, List.reverse_nil, List.find?_nil]
    cases nets.find? (fun x => x.netId == n) <;> rfl
  | cons cfg cfgs ih =>
    rw [List.foldl_cons, ih, setAllowedUidsOn_find?, Option.map_map]
    cases hfound : nets.find? (fun x => x.netId == n) with
    | none => rfl
    | some net =>
      have hnet : net.netId = n := by
        have := List.find?_some hfound
        simpa using this
      simp only [Option.map_some', Function.comp_apply]
      congr 1
      rw [List.reverse_cons, List.find?_append]
      cases hq : cfgs.reverse.find? (fun config => config.1 == n) with
      | some config =>
        simp only [Option.or]
        by_cases hc : net.netId = cfg.1 <;> simp [hc]
      | none =>
        simp only [Option.none_or, List.find?]
        by_cases hc1 : cfg.1 = n
        · have hb : (cfg.1 == n) = true := by simp [hc1]
          have hbn : (net.netId == cfg.1) = true := by simp [hnet, hc1]
          simp [hb, hbn]
        · have hb : (cfg.1 == n) = false := by simp [hc1]
          have hbn : (net.netId == cfg.1) = false := by
            simp only [hnet, beq_eq_false_iff_ne, ne_eq]
            exact fun h => hc1 (Eq.symm h)
          simp [hb, hbn]

/-- C5: `setNetworkAllowlist` is atomic: if any listed netId is unregistered
the call returns `-ENONET` (NO_NETWORK) with the state untouched; if all are
registered it succeeds, the set of registered networks is unchanged, and
afterwards every registered network's allowlist is exactly the ranges of the
last config listing it — in particular empty for every network the list does
not mention. -/
theorem setNetworkAllowlist_spec (c : NetworkController)
    (rangeConfigs : List (Nat × List (Nat × Nat))) :
    ((∃ config ∈ rangeConfigs, getNetworkLocked c config.1 = none) →
      setNetworkAllowlist c rangeConfigs = (-ENONET, c)) ∧
    ((∀ config ∈ rangeConfigs, (getNetworkLocked c config.1).isSome) →
      (setNetworkAllowlist c rangeConfigs).1 = 0 ∧
      (∀ n, isValidNetworkLocked (setNetworkAllowlist c rangeConfigs).2 n =
        isValidNetworkLocked c n) ∧
      (∀ n net, getNetworkLocked (setNetworkAllowlist c rangeConfigs).2 n = some net →
        net.allowedUids =
          ((rangeConfigs.reverse.find? (fun config => config.1 == n)).map
            (fun config => config.2)).getD [])) := by
  constructor
  · intro hbad
    rcases hbad with ⟨config, hmem, hnone⟩
    have hany : rangeConfigs.any (fun config => (getNetworkLocked c config.1).isNone)
        = true := by
      rw [List.any_eq_true]
      exact ⟨config, hmem, by simp [hnone]⟩
    unfold setNetworkAllowlist
    simp [hany]
  · intro hall
    have hany : rangeConfigs.any (fun config => (getNetworkLocked c config.1).isNone)
        = false := by
      rw [List.any_eq_false]
      intro config hmem
      have h1 := hall config hmem
      cases hx : getNetworkLocked c config.1 with
      | none => rw [hx] at h1; exact absurd h1 (by simp)
      | some net => simp [hx]
    have hret : (setNetworkAllowlist c rangeConfigs).1 = 0 := by
      unfold setNetworkAllowlist
      simp [hany]
    have hnets : (setNetworkAllowlist c rangeConfigs).2.networks =
        rangeConfigs.foldl (fun nets config => setAllowedUidsOn nets config.1 config.2)
          ((clearAllowedUidsForAllNetworksLocked c).networks) := by
      unfold setNetworkAllowlist
      simp [hany]
    have hlook : ∀ n, getNetworkLocked (setNetworkAllowlist c rangeConfigs).2 n =
        (c.networks.find? (fun x => x.netId == n)).map
          ((fun net =>
             match rangeConfigs.reverse.find? (fun config => config.1 == n) with
             | some config => { net with allowedUids := config.2 }
             | none => net) ∘ (fun net => { net with allowedUids := [] })) := by
      intro n
      unfold getNetworkLocked
      rw [hnets, foldl_setAllowedUids_find?]
      unfold clearAllowedUidsForAllNetworksLocked
      simp only
      rw [find?_map_keeps_netId (fun net => { net with allowedUids := [] }) (fun x => rfl),
          Option.map_map]
    refine ⟨hret, ?_, ?_⟩
    · intro n
      unfold isValidNetworkLocked
      rw [hlook n]
      unfold getNetworkLocked
      cases c.networks.find? (fun x => x.netId == n) <;> rfl
    · intro n net hsome
      rw [hlook n] at hsome
      cases hbase : c.networks.find? (fun x => x.netId == n) with
      | none => rw [hbase] at hsome; exact absurd hsome (by simp)
      | some net0 =>
        rw [hbase] at hsome
        cases hq : rangeConfigs.reverse.find? (fun config => config.1 == n) with
        | some config =>
          rw [hq] at hsome
          simp only [Option.map_some', Function.comp_apply, Option.some_inj] at hsome
          rw [← hsome]
          simp [hq]
        | none =>
          rw [hq] at hsome
          simp only [Option.map_some', Function.comp_apply, Option.some_inj] at hsome
          rw [← hsome]
          simp [hq]

/-- C5 witness: on the S2-style state, a list naming the unregistered netId
999 is rejected atomically, and a list naming only network 100 succeeds. -/
theorem setNetworkAllowlist_spec_witness :
    setNetworkAllowlist vpnScenarioController [(100, [(10000, 10999)]), (999, [])] =
      (-ENONET, vpnScenarioController) ∧
    (setNetworkAllowlist vpnScenarioController [(100, [(10000, 10999)])]).1 = 0 :=
  ⟨(setNetworkAllowlist_spec vpnScenarioController
      [(100, [(10000, 10999)]), (999, [])]).1 ⟨(999, []), by decide, by decide⟩,
   ((setNetworkAllowlist_spec vpnScenarioController
      [(100, [(10000, 10999)])]).2 (by decide)).1⟩

theorem alookupNat_append_zero (m : List (Nat × Nat)) (idx k : Nat) :
    alookupNat (m ++ [(idx, 0)]) k =
      (alookupNat m k).or (if idx == k then some 0 else none) := by
  unfold alookupNat
  rw [List.find?_append]
  cases h : m.find? (fun p => p.1 == k) with
  | some p => rfl
  | none => cases hik : (idx == k) <;> simp [List.find?, hik]

theorem vpnHandoverLoop_false_iff (c : NetworkController) (lastNetId : Nat)
    (h0 : isVirtualNetworkLocked c 0 = false) (m0 : List (Nat × Nat))
    (rest : List Nat) :
    ∀ (m : List (Nat × Nat)),
      (∀ k, alookupNat m k = alookupNat m0 k ∨
        (alookupNat m0 k = none ∧ alookupNat m k = some 0)) →
      ((vpnHandoverLoop c lastNetId rest m).1 = false ↔
        ∃ idx ∈ rest, alookupNat m0 idx = some lastNetId ∧
          isVirtualNetworkLocked c lastNetId = true) := by
  induction rest with
  | nil =>
    intro m _
    simp [vpnHandoverLoop]
  | cons idx rest ih =>
    intro m hext
    unfold vpnHandoverLoop mapIndexDefault
    cases hm : alookupNat m idx with
    | some v =>
      simp only
      cases hcond : (lastNetId == v && isVirtualNetworkLocked c v) with
      | true =>
        have hv : lastNetId = v := by
          have := (Bool.and_eq_true _ _).mp hcond
          simpa using this.1
        have hvirt : isVirtualNetworkLocked c v = true :=
          ((Bool.and_eq_true _ _).mp hcond).2
        simp only [if_pos rfl]
        constructor
        · intro _
          rcases hext idx with h | ⟨_, hz⟩
          · exact ⟨idx, List.mem_cons_self idx rest, by rw [← h, hm, hv], hv ▸ hvirt⟩
          · exfalso
            rw [hm] at hz
            have hv0 : v = 0 := by simpa using hz
            rw [hv0, h0] at hvirt
            exact Bool.false_ne_true hvirt
        · intro _
          rfl
      | false =>
        have hne : ¬ (false = true) := by simp
        rw [if_neg hne, ih m hext]
        constructor
        · rintro ⟨i, hi, hprop⟩
          exact ⟨i, List.mem_cons_of_mem idx hi, hprop⟩
        · rintro ⟨i, hi, hprop⟩
          rcases List.mem_cons.mp hi with rfl | hi2
          · exfalso
            rcases hext i with h | ⟨hn, _⟩
            · rw [hprop.1] at h
              rw [hm] at h
              have hveq : v = lastNetId := Option.some_inj.mp h
              subst hveq
              simp [hprop.2] at hcond
            · rw [hn] at hprop
              exact Option.noConfusion hprop.1
          · exact ⟨i, hi2, hprop⟩
    | none =>
      simp only
      have hcfalse : ¬ ((lastNetId == 0 && isVirtualNetworkLocked c 0) = true) := by
        simp [h0]
      rw [if_neg hcfalse]
      have hext2 : ∀ k, alookupNat (m ++ [(idx, 0)]) k = alookupNat m0 k ∨
          (alookupNat m0 k = none ∧ alookupNat (m ++ [(idx, 0)]) k = some 0) := by
        intro k
        rw [alookupNat_append_zero]
        rcases hext k with h | ⟨hn, hz⟩
        · cases hk : alookupNat m k with
          | some v2 => left; rw [← h, hk]; rfl
          | none =>
            rw [hk] at h
            cases hik : (idx == k) with
            | true => right; exact ⟨Eq.symm h, by simp⟩
            | false => left; rw [← h]; simp
        · right
          refine ⟨hn, ?_⟩
          rw [hz]
          rfl
      rw [ih (m ++ [(idx, 0)]) hext2]
      have hm0idx : alookupNat m0 idx = none := by
        rcases hext idx with h | ⟨hn, hz⟩
        · rw [← h, hm]
        · exact hn
      constructor
      · rintro ⟨i, hi, hprop⟩
        exact ⟨i, List.mem_cons_of_mem idx hi, hprop⟩
      · rintro ⟨i, hi, hprop⟩
        rcases List.mem_cons.mp hi with rfl | hi2
        · rw [hm0idx] at hprop
          exact Option.noConfusion hprop.1
        · exact ⟨i, hi2, hprop⟩

/-- C6: `removeInterfaceAddress(ifindex, addr)` returns true (force-close
sockets) whenever the address is unknown, or the ifindex is not in the
address's recorded set, or removing it empties that set, or the ifindex has
no entry in `ifindexToLastNetId`; otherwise it returns false if and only if
some remaining ifindex recorded for the address maps in `ifindexToLastNetId`
to the same netId as the removed ifindex and that netId is a currently
registered Virtual network. -/
theorem removeInterfaceAddress_spec (c : NetworkController) (ifindex : Nat)
    (address : String) (h0 : getNetworkLocked c NETID_UNSET = none) :
    (alookupStr c.addressToIfindices address = none →
      (removeInterfaceAddress c ifindex address).1 = true) ∧
    (∀ s, alookupStr c.addressToIfindices address = some s →
      s.contains ifindex = false → (removeInterfaceAddress c ifindex address).1 = true) ∧
    (∀ s, alookupStr c.addressToIfindices address = some s →
      s.contains ifindex = true → s.filter (fun i => i != ifindex) = [] →
      (removeInterfaceAddress c ifindex address).1 = true) ∧
    (∀ s, alookupStr c.addressToIfindices address = some s →
      s.contains ifindex = true → s.filter (fun i => i != ifindex) ≠ [] →
      alookupNat c.ifindexToLastNetId ifindex = none →
      (removeInterfaceAddress c ifindex address).1 = true) ∧
    (∀ s lastNetId, alookupStr c.addressToIfindices address = some s →
      s.contains ifindex = true → s.filter (fun i => i != ifindex) ≠ [] →
      alookupNat c.ifindexToLastNetId ifindex = some lastNetId →
      ((removeInterfaceAddress c ifindex address).1 = false ↔
        ∃ idx ∈ s.filter (fun i => i != ifindex),
          alookupNat c.ifindexToLastNetId idx = some lastNetId ∧
          isVirtualNetworkLocked c lastNetId = true)) := by
  have h0v : isVirtualNetworkLocked c 0 = false := by
    unfold isVirtualNetworkLocked
    rw [show (0 : Nat) = NETID_UNSET from rfl, h0]
  refine ⟨?_, ?_, ?_, ?_, ?_⟩
  · intro h
    unfold removeInterfaceAddress
    rw [h]
  · intro s hs hc
    have hcmem : ifindex ∉ s := by simpa using hc
    unfold removeInterfaceAddress
    rw [hs]
    simp [hcmem]
  · intro s hs hc hfil
    have hcmem : ifindex ∈ s := by simpa using hc
    have hall2 : ∀ a ∈ s, a = ifindex := by
      intro a ha
      have := List.filter_eq_nil_iff.mp hfil a ha
      simpa using this
    unfold removeInterfaceAddress
    rw [hs]
    simp [hcmem]
    rw [if_pos hall2]
  · intro s hs hc hfil hlast
    have hemp : ((s.filter (fun i => i != ifindex)).isEmpty = true) = False := by
      simp [List.isEmpty_iff, hfil]
    unfold removeInterfaceAddress
    rw [hs]
    simp only [if_pos hc, hemp, if_false, hlast]
  · intro s lastNetId hs hc hfil hlast
    have hemp : ((s.filter (fun i => i != ifindex)).isEmpty = true) = False := by
      simp [List.isEmpty_iff, hfil]
    unfold removeInterfaceAddress
    rw [hs]
    simp only [if_pos hc, hemp, if_false, hlast]
    exact vpnHandoverLoop_false_iff { c with addressToIfindices := c.addressToIfindices.map (fun p => if p.1 == address then (p.1, s.filter (fun i => i != ifindex)) else p) } lastNetId h0v c.ifindexToLastNetId (s.filter (fun i => i != ifindex)) c.ifindexToLastNetId (fun k => Or.inl rfl)

/-- C6 witness: scenario S5 — interfaces 10 and 11 both in virtual network
101 carry the address; removing it from ifindex 10 keeps sockets alive
(returns false) because ifindex 11 still maps to the same VPN. -/
theorem removeInterfaceAddress_spec_witness :
    (removeInterfaceAddress handoverScenarioController 10 "2001:db8::1").1 = false :=
  ((removeInterfaceAddress_spec handoverScenarioController 10 "2001:db8::1"
      (by decide)).2.2.2.2 [10, 11] 101 (by decide) (by decide) (by decide)
      (by decide)).mpr ⟨11, by decide, by decide, by decide⟩

theorem string_append_right_inj (s t1 t2 : String) (h : s ++ t1 = s ++ t2) : t1 = t2 := by
  apply String.ext
  have hd := congrArg String.data h
  rw [String.data_append, String.data_append] at hd
  exact List.append_cancel_left hd

theorem linkLine_inj {p c1 c2 : String} (h : linkLine p c1 = linkLine p c2) : c1 = c2 :=
  string_append_right_inj ("-A " ++ p ++ " -j ") c1 c2 h

theorem flushChainLine_inj {c1 c2 : String} (h : flushChainLine c1 = flushChainLine c2) :
    c1 = c2 := by
  unfold flushChainLine at h
  have hd := congrArg String.data h
  rw [String.data_append, String.data_append, String.data_append, String.data_append] at hd
  have h2 := List.append_cancel_right hd
  have h3 := List.append_cancel_left h2
  exact String.ext h3

theorem string_head_ne {s t : String} (a b : Char) (ha : s.data.head? = some a)
    (hb : t.data.head? = some b) (hab : a ≠ b) : s ≠ t := by
  intro h
  rw [h, hb] at ha
  exact hab (Eq.symm (Option.some_inj.mp ha))

theorem head_linkLine (p c : String) : (linkLine p c).data.head? = some '-' := rfl

theorem head_flushChainLine (c : String) : (flushChainLine c).data.head? = some ':' := rfl

theorem head_tableLine (t : String) : ("*" ++ t).data.head? = some '*' := rfl

theorem head_commitLine : ("COMMIT" : String).data.head? = some 'C' := rfl

theorem take2_linkLine (p c : String) : (linkLine p c).data.take 2 = ['-', 'A'] := rfl

theorem take2_flushChainLine (c : String) :
    (flushChainLine c).data.take 2 = ':' :: (c.data ++ [' ', '-']).take 1 := rfl

theorem take2_tableLine (t : String) : ("*" ++ t).data.take 2 = '*' :: t.data.take 1 := rfl

theorem take2_commitLine : ("COMMIT" : String).data.take 2 = ['C', 'O'] := rfl

theorem contains_eq_false_of_not_mem {ch : String} {l : List String} (h : ch ∉ l) :
    l.contains ch = false := by
  cases hc : l.contains ch with
  | false => rfl
  | true => exact absurd (List.elem_iff.mp hc) h

theorem mem_of_contains_eq_true {ch : String} {l : List String} (h : l.contains ch = true) :
    ch ∈ l :=
  List.elem_iff.mp h

/-- C7: a cooperative-mode install emits a create-or-flush line for every
child, emits a link rule exactly for the children whose link was not found in
the listed parent contents, and emits no delete commands and no flush of the
parent chain; an exclusive-mode install emits both the create-or-flush and
the built-in flush of the parent and then recreates and links every child, in
order. -/
theorem createChildChains_spec (listing : List String) (table parentChain : String)
    (childChains : List String) (hp : parentChain ∉ childChains) :
    (∀ ch ∈ childChains,
      flushChainLine ch ∈ createChildChains listing table parentChain childChains false) ∧
    (∀ ch, linkLine parentChain ch ∈
        createChildChains listing table parentChain childChains false ↔
      (ch ∈ childChains ∧ ch ∉ findExistingChildChains parentChain listing)) ∧
    (∀ l ∈ createChildChains listing table parentChain childChains false,
      l.data.take 2 ≠ ['-', 'D'] ∧ l.data.take 2 ≠ ['-', 'X'] ∧
      l.data.take 2 ≠ ['-', 'F']) ∧
    (flushChainLine parentChain ∉
      createChildChains listing table parentChain childChains false) ∧
    ([flushChainLine parentChain, "-F " ++ parentChain] ++
      childChains.flatMap (fun ch => [flushChainLine ch, linkLine parentChain ch])).Sublist
      (createChildChains listing table parentChain childChains true) := by
  have coop_eq : createChildChains listing table parentChain childChains false =
      ("*" ++ table) ::
        (childChains.flatMap (fun ch =>
          flushChainLine ch ::
            (if (findExistingChildChains parentChain listing).contains ch then []
             else [linkLine parentChain ch])) ++ ["COMMIT"]) := rfl
  refine ⟨?_, ?_, ?_, ?_, ?_⟩
  · intro ch hch
    rw [coop_eq]
    exact List.mem_cons_of_mem _ (List.mem_append_left _
      (List.mem_flatMap.mpr ⟨ch, hch, List.mem_cons_self _ _⟩))
  · intro ch
    constructor
    · intro hmem
      rw [coop_eq] at hmem
      rcases List.mem_cons.mp hmem with heq | hmem2
      · exact absurd heq
          (string_head_ne '-' '*' (head_linkLine _ _) (head_tableLine _) (by decide))
      · rcases List.mem_append.mp hmem2 with hmem3 | hmem4
        · rcases List.mem_flatMap.mp hmem3 with ⟨ch2, hch2, hin⟩
          rcases List.mem_cons.mp hin with heq2 | hin2
          · exact absurd heq2
              (string_head_ne '-' ':' (head_linkLine _ _) (head_flushChainLine _) (by decide))
          · cases hcont : (findExistingChildChains parentChain listing).contains ch2 with
            | true => rw [hcont] at hin2; exact absurd hin2 (List.not_mem_nil _)
            | false =>
              rw [hcont] at hin2
              have hcc : ch = ch2 := linkLine_inj (List.mem_singleton.mp hin2)
              subst hcc
              refine ⟨hch2, fun hmem5 => ?_⟩
              have helem : (findExistingChildChains parentChain listing).contains ch = true :=
                List.elem_iff.mpr hmem5
              rw [helem] at hcont
              exact Bool.noConfusion hcont
        · exact absurd (List.mem_singleton.mp hmem4)
            (string_head_ne '-' 'C' (head_linkLine _ _) head_commitLine (by decide))
    · rintro ⟨hch, hnex⟩
      rw [coop_eq]
      refine List.mem_cons_of_mem _ (List.mem_append_left _
        (List.mem_flatMap.mpr ⟨ch, hch, ?_⟩))
      rw [contains_eq_false_of_not_mem hnex]
      exact List.mem_cons_of_mem _ (List.mem_singleton.mpr rfl)
  · intro l hl
    rw [coop_eq] at hl
    rcases List.mem_cons.mp hl with heq | hl2
    · subst heq
      rw [take2_tableLine]
      refine ⟨by simp, by simp, by simp⟩
    · rcases List.mem_append.mp hl2 with hl3 | hl4
      · rcases List.mem_flatMap.mp hl3 with ⟨ch2, _, hin⟩
        rcases List.mem_cons.mp hin with heq2 | hin2
        · subst heq2
          rw [take2_flushChainLine]
          refine ⟨by simp, by simp, by simp⟩
        · cases hcont : (findExistingChildChains parentChain listing).contains ch2 with
          | true => rw [hcont] at hin2; exact absurd hin2 (List.not_mem_nil _)
          | false =>
            rw [hcont] at hin2
            rw [List.mem_singleton.mp hin2, take2_linkLine]
            refine ⟨by decide, by decide, by decide⟩
      · rw [List.mem_singleton.mp hl4, take2_commitLine]
        refine ⟨by decide, by decide, by decide⟩
  · intro hmem
    rw [coop_eq] at hmem
    rcases List.mem_cons.mp hmem with heq | hmem2
    · exact absurd heq
        (string_head_ne ':' '*' (head_flushChainLine _) (head_tableLine _) (by decide))
    · rcases List.mem_append.mp hmem2 with hmem3 | hmem4
      · rcases List.mem_flatMap.mp hmem3 with ⟨ch2, hch2, hin⟩
        rcases List.mem_cons.mp hin with heq2 | hin2
        · exact absurd (flushChainLine_inj heq2) (fun h => hp (h ▸ hch2))
        · cases hcont : (findExistingChildChains parentChain listing).contains ch2 with
          | true => rw [hcont] at hin2; exact absurd hin2 (List.not_mem_nil _)
          | false =>
            rw [hcont] at hin2
            exact absurd (List.mem_singleton.mp hin2)
              (string_head_ne ':' '-' (head_flushChainLine _) (head_linkLine _ _) (by decide))
      · exact absurd (List.mem_singleton.mp hmem4)
          (string_head_ne ':' 'C' (head_flushChainLine _) head_commitLine (by decide))
  · have excl_eq : createChildChains listing table parentChain childChains true =
        ("*" ++ table) ::
          (([flushChainLine parentChain, "-F " ++ parentChain] ++
            childChains.flatMap (fun ch => [flushChainLine ch, linkLine parentChain ch])) ++
            ["COMMIT"]) := rfl
    rw [excl_eq]
    exact (List.sublist_append_left _ _).cons _

/-- C7 witness: scenario S4 — with a vendor rule and a prior oem_out link in
the listed parent contents, the cooperative batch re-links the missing child
but not the already-linked one, and the parent is not flushed. -/
theorem createChildChains_spec_witness :
    linkLine "OUTPUT" "fw_OUTPUT" ∈
      createChildChains ["-A OUTPUT -j vendor_chain", "-A OUTPUT -j oem_out"] "filter"
        "OUTPUT" ["oem_out", "fw_OUTPUT", "st_OUTPUT", "bw_OUTPUT"] false ∧
    linkLine "OUTPUT" "oem_out" ∉
      createChildChains ["-A OUTPUT -j vendor_chain", "-A OUTPUT -j oem_out"] "filter"
        "OUTPUT" ["oem_out", "fw_OUTPUT", "st_OUTPUT", "bw_OUTPUT"] false ∧
    flushChainLine "OUTPUT" ∉
      createChildChains ["-A OUTPUT -j vendor_chain", "-A OUTPUT -j oem_out"] "filter"
        "OUTPUT" ["oem_out", "fw_OUTPUT", "st_OUTPUT", "bw_OUTPUT"] false := by
  have h := createChildChains_spec ["-A OUTPUT -j vendor_chain", "-A OUTPUT -j oem_out"]
    "filter" "OUTPUT" ["oem_out", "fw_OUTPUT", "st_OUTPUT", "bw_OUTPUT"] (by decide)
  refine ⟨(h.2.1 "fw_OUTPUT").mpr (by decide), fun hmem => ?_, h.2.2.2.1⟩
  have h2 := (h.2.1 "oem_out").mp hmem
  exact absurd h2.2 (by decide)

theorem bestPhysUnreachStep_cases (uid : Nat) (acc : Option Network × Int) (a : Network) :
    (bestPhysUnreachStep uid acc a = acc ∧
      (∀ s', (a.kind = NetworkKind.physical ∨ a.kind = NetworkKind.unreachable) →
        a.appliesToUser uid = some s' → s' ≠ SUB_PRIORITY_NO_DEFAULT → acc.2 ≤ s')) ∨
    (∃ s, (a.kind = NetworkKind.physical ∨ a.kind = NetworkKind.unreachable) ∧
      a.appliesToUser uid = some s ∧ s ≠ SUB_PRIORITY_NO_DEFAULT ∧ s < acc.2 ∧
      bestPhysUnreachStep uid acc a = (some a, s)) := by
  by_cases hk : a.kind = NetworkKind.physical ∨ a.kind = NetworkKind.unreachable
  · have hkb : (a.kind == NetworkKind.physical || a.kind == NetworkKind.unreachable) = true := by
      rcases hk with h | h <;> simp [h]
    have hstep0 : bestPhysUnreachStep uid acc a =
        (match a.appliesToUser uid with
         | none => acc
         | some subPriority =>
           if subPriority == SUB_PRIORITY_NO_DEFAULT then acc
           else if subPriority < acc.2 then (some a, subPriority) else acc) := by
      unfold bestPhysUnreachStep
      rw [hkb]
      simp
    cases ha : a.appliesToUser uid with
    | none =>
      left
      rw [ha] at hstep0
      exact ⟨hstep0, fun s' _ happ _ => absurd happ (by simp)⟩
    | some s =>
      rw [ha] at hstep0
      by_cases h999 : s = SUB_PRIORITY_NO_DEFAULT
      · left
        refine ⟨?_, fun s' _ happ hne => ?_⟩
        · rw [hstep0]
          simp [h999]
        · have hss : s = s' := Option.some_inj.mp happ
          exact absurd (hss ▸ h999) hne
      · have hb999 : (s == SUB_PRIORITY_NO_DEFAULT) = false := by simp [h999]
        by_cases hlt : s < acc.2
        · right
          refine ⟨s, hk, rfl, h999, hlt, ?_⟩
          rw [hstep0]
          simp [hb999, hlt]
        · left
          refine ⟨?_, fun s' _ happ _ => ?_⟩
          · rw [hstep0]
            simp [hb999, hlt]
          · have hss : s = s' := Option.some_inj.mp happ
            omega
  · left
    have hkb : (a.kind == NetworkKind.physical || a.kind == NetworkKind.unreachable)
        = false := by
      rw [not_or] at hk
      simp [hk.1, hk.2]
    constructor
    · unfold bestPhysUnreachStep
      rw [hkb]
      simp
    · intro s' hknd _ _
      exact absurd hknd hk

theorem bestFold_spec (uid : Nat) (l : List Network) :
    ∀ acc : Option Network × Int,
    (l.foldl (bestPhysUnreachStep uid) acc = acc ∨
      ∃ b s, l.foldl (bestPhysUnreachStep uid) acc = (some b, s) ∧ b ∈ l ∧
        (b.kind = NetworkKind.physical ∨ b.kind = NetworkKind.unreachable) ∧
        b.appliesToUser uid = some s ∧ s < acc.2) ∧
    (l.foldl (bestPhysUnreachStep uid) acc).2 ≤ acc.2 ∧
    (∀ n ∈ l, ∀ s', (n.kind = NetworkKind.physical ∨ n.kind = NetworkKind.unreachable) →
      n.appliesToUser uid = some s' → s' ≠ SUB_PRIORITY_NO_DEFAULT →
      ((l.foldl (bestPhysUnreachStep uid) acc).2 ≤ s' ∨ acc.2 ≤ s')) := by
  induction l with
  | nil =>
    intro acc
    exact ⟨Or.inl rfl, le_refl _, fun n hn => absurd hn (List.not_mem_nil _)⟩
  | cons a l ih =>
    intro acc
    rw [List.foldl_cons]
    rcases bestPhysUnreachStep_cases uid acc a with ⟨heq, hmin⟩ | ⟨s, hkind, happ, h999, hlt, heq⟩
    · rw [heq]
      rcases ih acc with ⟨hA, hB, hC⟩
      refine ⟨?_, hB, ?_⟩
      · rcases hA with h | ⟨b, s2, h1, h2, h3, h4, h5⟩
        · exact Or.inl h
        · exact Or.inr ⟨b, s2, h1, List.mem_cons_of_mem _ h2, h3, h4, h5⟩
      · intro n hn s' hknd happ' h999'
        rcases List.mem_cons.mp hn with rfl | hn2
        · exact Or.inr (hmin s' hknd happ' h999')
        · exact hC n hn2 s' hknd happ' h999'
    · rw [heq]
      rcases ih (some a, s) with ⟨hA, hB, hC⟩
      refine ⟨?_, ?_, ?_⟩
      · rcases hA with h | ⟨b, s2, h1, h2, h3, h4, h5⟩
        · right
          exact ⟨a, s, h, List.mem_cons_self _ _, hkind, happ, hlt⟩
        · right
          refine ⟨b, s2, h1, List.mem_cons_of_mem _ h2, h3, h4, ?_⟩
          have h5' : s2 < s := h5
          omega
      · have hB' : (l.foldl (bestPhysUnreachStep uid) (some a, s)).2 ≤ s := hB
        omega
      · intro n hn s' hknd happ' h999'
        rcases List.mem_cons.mp hn with rfl | hn2
        · left
          have hss : s' = s := by
            rw [happ] at happ'
            exact Eq.symm (Option.some_inj.mp happ')
          rw [hss]
          exact hB
        · rcases hC n hn2 s' hknd happ' h999' with h | h
          · exact Or.inl h
          · left
            have hacc : (some a, s).2 ≤ s' := h
            have hB' : (l.foldl (bestPhysUnreachStep uid) (some a, s)).2 ≤ s := hB
            omega

theorem getPhysOrUnreach_some (c : NetworkController) (uid : Nat) (b : Network)
    (h : getPhysicalOrUnreachableNetworkForUserLocked c uid = some b) :
    b ∈ c.networks ∧ (b.kind = NetworkKind.physical ∨ b.kind = NetworkKind.unreachable) ∧
    ∃ s, b.appliesToUser uid = some s ∧ s < SUB_PRIORITY_NO_DEFAULT ∧
      ∀ n ∈ c.networks,
        (n.kind = NetworkKind.physical ∨ n.kind = NetworkKind.unreachable) →
        ∀ s', n.appliesToUser uid = some s' → s' < SUB_PRIORITY_NO_DEFAULT → s ≤ s' := by
  unfold getPhysicalOrUnreachableNetworkForUserLocked at h
  rcases bestFold_spec uid c.networks (none, SUB_PRIORITY_NO_DEFAULT) with ⟨hA, _, hC⟩
  rcases hA with hacc | ⟨b2, s, heq, hmem, hknd, happ, hlt⟩
  · rw [hacc] at h
    exact absurd h (by simp)
  · rw [heq] at h
    have hb : b2 = b := Option.some_inj.mp h
    subst hb
    refine ⟨hmem, hknd, s, happ, hlt, ?_⟩
    intro n hn hknd' s' happ' hlt'
    have h999 : s' ≠ SUB_PRIORITY_NO_DEFAULT := by omega
    rcases hC n hn s' hknd' happ' h999 with hle | hle
    · rw [heq] at hle
      exact hle
    · omega

theorem getPhysOrUnreach_none (c : NetworkController) (uid : Nat)
    (h : getPhysicalOrUnreachableNetworkForUserLocked c uid = none) :
    ∀ n ∈ c.networks,
      (n.kind = NetworkKind.physical ∨ n.kind = NetworkKind.unreachable) →
      ∀ s', n.appliesToUser uid = some s' → SUB_PRIORITY_NO_DEFAULT ≤ s' := by
  unfold getPhysicalOrUnreachableNetworkForUserLocked at h
  rcases bestFold_spec uid c.networks (none, SUB_PRIORITY_NO_DEFAULT) with ⟨hA, _, hC⟩
  intro n hn hknd s' happ
  by_cases h999 : s' = SUB_PRIORITY_NO_DEFAULT
  · omega
  · rcases hC n hn s' hknd happ h999 with hle | hle
    · rcases hA with hacc | ⟨b2, s, heq, _, _, _, _⟩
      · rw [hacc] at hle
        exact hle
      · rw [heq] at h
        exact absurd h (by simp)
    · exact hle

theorem getVirtualNetworkForUser_some (c : NetworkController) (uid : Nat) (v : Network)
    (h : getVirtualNetworkForUserLocked c uid = some v) :
    v ∈ c.networks ∧ v.kind = NetworkKind.virtual := by
  unfold getVirtualNetworkForUserLocked at h
  refine ⟨List.mem_of_find?_eq_some h, ?_⟩
  have hp := List.find?_some h
  rw [Bool.and_eq_true] at hp
  simpa using hp.1

/-- C10: `getNetworkForUser` resolves to the Virtual network applying to the
uid when one exists, otherwise the applicable physical-or-unreachable network
with the smallest subPriority below `SUB_PRIORITY_NO_DEFAULT`, otherwise the
current default netId — while `getNetworkForConnect` on the same state never
returns the VPN's netId. -/
theorem getNetworkForUser_vs_connect (c : NetworkController) (uid : Nat)
    (hnd : (c.networks.map (fun n => n.netId)).Nodup)
    (h0 : getNetworkLocked c NETID_UNSET = none)
    (hdef : c.defaultNetId = NETID_UNSET ∨
      ∃ d, getNetworkLocked c c.defaultNetId = some d ∧ d.kind = NetworkKind.physical) :
    (∀ v, getVirtualNetworkForUserLocked c uid = some v →
      getNetworkForUser c uid = v.netId) ∧
    (∀ b, getVirtualNetworkForUserLocked c uid = none →
      getPhysicalOrUnreachableNetworkForUserLocked c uid = some b →
      getNetworkForUser c uid = b.netId ∧
      (b.kind = NetworkKind.physical ∨ b.kind = NetworkKind.unreachable) ∧
      ∃ s, b.appliesToUser uid = some s ∧ s < SUB_PRIORITY_NO_DEFAULT ∧
        ∀ n ∈ c.networks,
          (n.kind = NetworkKind.physical ∨ n.kind = NetworkKind.unreachable) →
          ∀ s', n.appliesToUser uid = some s' → s' < SUB_PRIORITY_NO_DEFAULT → s ≤ s') ∧
    (getVirtualNetworkForUserLocked c uid = none →
      getPhysicalOrUnreachableNetworkForUserLocked c uid = none →
      getNetworkForUser c uid = c.defaultNetId) ∧
    (∀ v, getVirtualNetworkForUserLocked c uid = some v →
      getNetworkForConnectLocked c uid ≠ v.netId) := by
  refine ⟨?_, ?_, ?_, ?_⟩
  · intro v hv
    unfold getNetworkForUser
    rw [hv]
  · intro b hv hb
    rcases getPhysOrUnreach_some c uid b hb with ⟨hmem, hknd, hs⟩
    refine ⟨?_, hknd, hs⟩
    unfold getNetworkForUser
    rw [hv, hb]
  · intro hv hb
    unfold getNetworkForUser
    rw [hv, hb]
  · intro v hv heq
    rcases getVirtualNetworkForUser_some c uid v hv with ⟨hvmem, hvkind⟩
    cases hb : getPhysicalOrUnreachableNetworkForUserLocked c uid with
    | some b =>
      have hconn : getNetworkForConnectLocked c uid = b.netId := by
        unfold getNetworkForConnectLocked
        rw [hb]
      rw [hconn] at heq
      rcases getPhysOrUnreach_some c uid b hb with ⟨hbmem, hbknd, _⟩
      have hbv : b = v := List.inj_on_of_nodup_map hnd hbmem hvmem heq
      rw [hbv, hvkind] at hbknd
      rcases hbknd with h | h <;> exact NetworkKind.noConfusion h
    | none =>
      have hconn : getNetworkForConnectLocked c uid = c.defaultNetId := by
        unfold getNetworkForConnectLocked
        rw [hb]
      rw [hconn] at heq
      rcases hdef with hd0 | ⟨d, hd, hdkind⟩
      · rw [hd0] at heq
        have hnone := List.find?_eq_none.mp h0 v hvmem
        rw [← heq] at hnone
        simp at hnone
      · rw [heq] at hd
        have hdmem := List.mem_of_find?_eq_some hd
        have hdnet : d.netId = v.netId := by
          have := List.find?_some hd
          simpa using this
        have hdv : d = v := List.inj_on_of_nodup_map hnd hdmem hvmem hdnet
        rw [hdv, hvkind] at hdkind
        exact NetworkKind.noConfusion hdkind

/-- C10 witness: on the S2-style state, uid 10001 resolves to the VPN 101 via
`getNetworkForUser` while `getNetworkForConnect` avoids it. -/
theorem getNetworkForUser_vs_connect_witness :
    getNetworkForUser vpnScenarioController 10001 = 101 ∧
    getNetworkForConnectLocked vpnScenarioController 10001 ≠ 101 := by
  have h := getNetworkForUser_vs_connect vpnScenarioController 10001 (by decide) (by decide)
    (Or.inr ⟨{ newNetwork 100 NetworkKind.physical with isDefault := true }, by decide, rfl⟩)
  have hv : getVirtualNetworkForUserLocked vpnScenarioController 10001 = some { newNetwork 101 NetworkKind.virtual with secure := true, uidRanges := [{ start := 10000, stop := 10999, subPriority := 0 }] } := by decide
  refine ⟨?_, h.2.2.2 _ hv⟩
  rw [h.1 _ hv]
  rfl

end Netd
